import Mathlib

/-!
Verification of the route dispatcher of `simple_test_server.py` (Rustodon
simple test server). The handler methods `TestHandler.do_GET` and
`TestHandler.do_POST` are embedded as pure functions from the current time
string (Python's `datetime.now().isoformat()`) and the raw request path to a
response consisting of a status code, explicitly sent headers, and a JSON
body.
-/

/-- A JSON value as used by the payloads of `simple_test_server.py`: every
value occurring in a response object of the source is a string, `None`, or a
list whose elements are strings (all arrays in the source are either empty or
lists of endpoint strings). -/
inductive JsonVal where
  | null
  | str (s : String)
  | arr (elems : List String)
deriving DecidableEq, Repr

/-- A JSON object: an insertion-ordered association list, as a Python dict. -/
abbrev JsonObj := List (String × JsonVal)

/-- The key set of a JSON object, in insertion order. -/
def keys (body : JsonObj) : List String := body.map Prod.fst

/-- Python's `str.startswith`. -/
def startswith (s pre : String) : Bool := pre.data.isPrefixOf s.data

/-- Python's `str.endswith`. -/
def endswith (s suf : String) : Bool := suf.data.isSuffixOf s.data

/-- An HTTP method handled by `TestHandler`. -/
inductive Method where
  | GET
  | POST
deriving DecidableEq, Repr

/-- A response as written by a handler method: the status code passed to
`send_response`, the headers passed to `send_header`, and the JSON body
written to `wfile`. -/
structure Response where
  status : Nat
  headers : List (String × String)
  body : JsonObj
deriving DecidableEq, Repr

/-- The response body computed by the `if`/`elif` chain of
`TestHandler.do_GET`; `now` stands for `datetime.now().isoformat()` and
`path` for `self.path` (the raw request path including any query string). -/
def getResponseBody (now path : String) : JsonObj :=
  if path = "/health" then
    [("status", JsonVal.str "ok"), ("message", JsonVal.str "Health check passed"),
     ("timestamp", JsonVal.str now)]
  else if path = "/api/v1/instance" then
    [("version", JsonVal.str "1.0.0"), ("name", JsonVal.str "Rustodon Test Server"),
     ("description", JsonVal.str "Test server for API validation")]
  else if path = "/api/v1/timelines/public" then
    [("statuses", JsonVal.arr []), ("next", JsonVal.null), ("prev", JsonVal.null)]
  else if startswith path "/api/v1/accounts/" then
    [("id", JsonVal.str "1"), ("username", JsonVal.str "testuser"),
     ("display_name", JsonVal.str "Test User"),
     ("created_at", JsonVal.str "2025-01-01T00:00:00Z")]
  else if startswith path "/api/v1/search" then
    [("accounts", JsonVal.arr []), ("statuses", JsonVal.arr []), ("hashtags", JsonVal.arr [])]
  else
    [("message", JsonVal.str "Welcome to Rustodon Test Server"),
     ("endpoints", JsonVal.arr ["/health", "/api/v1/instance", "/api/v1/timelines/public",
       "/api/v1/accounts/1", "/api/v1/search?q=test"])]

/-- `TestHandler.do_GET`: sends status 200, the two headers, and the body. -/
def do_GET (now path : String) : Response :=
  { status := 200,
    headers := [("Content-type", "application/json"), ("Access-Control-Allow-Origin", "*")],
    body := getResponseBody now path }

/-- The response body computed by the `if`/`elif` chain of
`TestHandler.do_POST`, in the source's order: five exact matches, then the
six suffix matches, then the remaining seven exact matches, then the
fallback. -/
def postResponseBody (now path : String) : JsonObj :=
  if path = "/api/v1/auth/register" then
    [("token", JsonVal.str "test_token_123"), ("user_id", JsonVal.str "1"),
     ("message", JsonVal.str "Registration successful")]
  else if path = "/api/v1/auth/login" then
    [("token", JsonVal.str "test_token_123"), ("user_id", JsonVal.str "1"),
     ("message", JsonVal.str "Login successful")]
  else if path = "/api/v1/statuses" then
    [("id", JsonVal.str "1"), ("content", JsonVal.str "Test status"),
     ("created_at", JsonVal.str now)]
  else if path = "/api/v1/media" then
    [("id", JsonVal.str "1"), ("type", JsonVal.str "image"),
     ("url", JsonVal.str "https://example.com/test.jpg")]
  else if path = "/api/v1/notifications" then
    [("notifications", JsonVal.arr [])]
  else if endswith path "/follow" then
    [("message", JsonVal.str "Follow successful")]
  else if endswith path "/unfollow" then
    [("message", JsonVal.str "Unfollow successful")]
  else if endswith path "/favourite" then
    [("message", JsonVal.str "Favourite successful")]
  else if endswith path "/unfavourite" then
    [("message", JsonVal.str "Unfavourite successful")]
  else if endswith path "/reblog" then
    [("message", JsonVal.str "Reblog successful")]
  else if endswith path "/unreblog" then
    [("message", JsonVal.str "Unreblog successful")]
  else if path = "/api/v1/lists" then
    [("lists", JsonVal.arr [])]
  else if path = "/api/v1/conversations" then
    [("conversations", JsonVal.arr [])]
  else if path = "/api/v1/bookmarks" then
    [("bookmarks", JsonVal.arr [])]
  else if path = "/api/v1/mutes" then
    [("mutes", JsonVal.arr [])]
  else if path = "/api/v1/blocks" then
    [("blocks", JsonVal.arr [])]
  else if path = "/api/v1/reports" then
    [("reports", JsonVal.arr [])]
  else if path = "/api/v1/filters" then
    [("filters", JsonVal.arr [])]
  else
    [("error", JsonVal.str "Endpoint not implemented"), ("path", JsonVal.str path)]

/-- `TestHandler.do_POST`: sends status 200, the two headers, and the body. -/
def do_POST (now path : String) : Response :=
  { status := 200,
    headers := [("Content-type", "application/json"), ("Access-Control-Allow-Origin", "*")],
    body := postResponseBody now path }

/-- The dispatcher: `BaseHTTPRequestHandler` routes a request to `do_GET` or
`do_POST` according to its method. -/
def handle (m : Method) (now path : String) : Response :=
  match m with
  | Method.GET => do_GET now path
  | Method.POST => do_POST now path

/-- The POST response body computed by evaluating the rules in the priority
order stated by the spec: all twelve exact-match rules first, then the six
suffix rules, then the fallback. Reference definition for the refinement
claim comparing the spec's order with the source's order. -/
def postResponseBodySpecOrder (now path : String) : JsonObj :=
  if path = "/api/v1/auth/register" then
    [("token", JsonVal.str "test_token_123"), ("user_id", JsonVal.str "1"),
     ("message", JsonVal.str "Registration successful")]
  else if path = "/api/v1/auth/login" then
    [("token", JsonVal.str "test_token_123"), ("user_id", JsonVal.str "1"),
     ("message", JsonVal.str "Login successful")]
  else if path = "/api/v1/statuses" then
    [("id", JsonVal.str "1"), ("content", JsonVal.str "Test status"),
     ("created_at", JsonVal.str now)]
  else if path = "/api/v1/media" then
    [("id", JsonVal.str "1"), ("type", JsonVal.str "image"),
     ("url", JsonVal.str "https://example.com/test.jpg")]
  else if path = "/api/v1/notifications" then
    [("notifications", JsonVal.arr [])]
  else if path = "/api/v1/lists" then
    [("lists", JsonVal.arr [])]
  else if path = "/api/v1/conversations" then
    [("conversations", JsonVal.arr [])]
  else if path = "/api/v1/bookmarks" then
    [("bookmarks", JsonVal.arr [])]
  else if path = "/api/v1/mutes" then
    [("mutes", JsonVal.arr [])]
  else if path = "/api/v1/blocks" then
    [("blocks", JsonVal.arr [])]
  else if path = "/api/v1/reports" then
    [("reports", JsonVal.arr [])]
  else if path = "/api/v1/filters" then
    [("filters", JsonVal.arr [])]
  else if endswith path "/follow" then
    [("message", JsonVal.str "Follow successful")]
  else if endswith path "/unfollow" then
    [("message", JsonVal.str "Unfollow successful")]
  else if endswith path "/favourite" then
    [("message", JsonVal.str "Favourite successful")]
  else if endswith path "/unfavourite" then
    [("message", JsonVal.str "Unfavourite successful")]
  else if endswith path "/reblog" then
    [("message", JsonVal.str "Reblog successful")]
  else if endswith path "/unreblog" then
    [("message", JsonVal.str "Unreblog successful")]
  else
    [("error", JsonVal.str "Endpoint not implemented"), ("path", JsonVal.str path)]

/-! Helper lemmas about `startswith` and `endswith`. -/

theorem ne_of_startswith {p a c : String} (h : startswith p a = true)
    (hc : startswith c a = false) : p ≠ c := by
  intro he
  subst he
  rw [h] at hc
  cases hc

theorem ne_of_endswith {p a c : String} (h : endswith p a = true)
    (hc : endswith c a = false) : p ≠ c := by
  intro he
  subst he
  rw [h] at hc
  cases hc

theorem startswith_false_of_startswith {p a b : String} (h : startswith p a = true)
    (h1 : a.data.isPrefixOf b.data = false) (h2 : b.data.isPrefixOf a.data = false) :
    startswith p b = false := by
  by_contra hc
  simp only [Bool.not_eq_false] at hc
  simp only [startswith, List.isPrefixOf_iff_prefix] at h hc
  rcases List.prefix_or_prefix_of_prefix h hc with h3 | h3
  · rw [← List.isPrefixOf_iff_prefix] at h3
    rw [h3] at h1
    cases h1
  · rw [← List.isPrefixOf_iff_prefix] at h3
    rw [h3] at h2
    cases h2

theorem endswith_false_of_endswith {p a b : String} (h : endswith p a = true)
    (h1 : a.data.isSuffixOf b.data = false) (h2 : b.data.isSuffixOf a.data = false) :
    endswith p b = false := by
  by_contra hc
  simp only [Bool.not_eq_false] at hc
  simp only [endswith, List.isSuffixOf_iff_suffix] at h hc
  rcases List.suffix_or_suffix_of_suffix h hc with h3 | h3
  · rw [← List.isSuffixOf_iff_suffix] at h3
    rw [h3] at h1
    cases h1
  · rw [← List.isSuffixOf_iff_suffix] at h3
    rw [h3] at h2
    cases h2

theorem not_true_of_false {b : Bool} (h : b = false) : ¬b = true := by
  simp [h]

theorem startswith_not_of_startswith (b : String) {p a : String} (h : startswith p a = true)
    (h1 : a.data.isPrefixOf b.data = false) (h2 : b.data.isPrefixOf a.data = false) :
    ¬startswith p b = true :=
  not_true_of_false (startswith_false_of_startswith h h1 h2)

theorem endswith_not_of_endswith (b : String) {p a : String} (h : endswith p a = true)
    (h1 : a.data.isSuffixOf b.data = false) (h2 : b.data.isSuffixOf a.data = false) :
    ¬endswith p b = true :=
  not_true_of_false (endswith_false_of_endswith h h1 h2)

theorem startswith_append (a s : String) : startswith (a ++ s) a = true := by
  simp [startswith, List.isPrefixOf_iff_prefix]

theorem append_ne_self {a q : String} (hq : q.data ≠ []) : a ++ q ≠ a := by
  intro he
  have hd : (a ++ q).data = a.data := congrArg String.data he
  rw [String.data_append] at hd
  have hl := congrArg List.length hd
  rw [List.length_append] at hl
  have h0 : q.data.length = 0 := by omega
  exact hq (List.length_eq_zero.mp h0)

theorem data_ne_nil_of_startswith {q pre : String} (hp : pre.data ≠ [])
    (h : startswith q pre = true) : q.data ≠ [] := by
  intro he
  rw [startswith, he] at h
  cases hpre : pre.data with
  | nil => exact hp hpre
  | cons c cs => rw [hpre] at h; cases h

/-! Claim theorems. -/

/-- C1: for every HTTP method in {GET, POST} and every request path, the
dispatcher produces a response with status code 200 and a JSON body, and the
response headers include both `Content-type: application/json` and
`Access-Control-Allow-Origin: *`; no input yields an error status or a 404. -/
theorem every_response_is_200_json_cors (m : Method) (now path : String) :
    (handle m now path).status = 200 ∧
    ("Content-type", "application/json") ∈ (handle m now path).headers ∧
    ("Access-Control-Allow-Origin", "*") ∈ (handle m now path).headers := by
  cases m <;>
    exact ⟨rfl, List.mem_cons_self _ _, List.mem_cons_of_mem _ (List.mem_cons_self _ _)⟩

/-- C2: for every POST request path, the body computed by the source's rule
order equals the body computed by the spec's stated priority order (all
twelve exact-match rules, then the six suffix rules, then the fallback). -/
theorem post_body_equals_spec_priority_order (now p : String) :
    postResponseBody now p = postResponseBodySpecOrder now p := by
  by_cases h1 : p = "/api/v1/lists"
  · subst h1; rfl
  by_cases h2 : p = "/api/v1/conversations"
  · subst h2; rfl
  by_cases h3 : p = "/api/v1/bookmarks"
  · subst h3; rfl
  by_cases h4 : p = "/api/v1/mutes"
  · subst h4; rfl
  by_cases h5 : p = "/api/v1/blocks"
  · subst h5; rfl
  by_cases h6 : p = "/api/v1/reports"
  · subst h6; rfl
  by_cases h7 : p = "/api/v1/filters"
  · subst h7; rfl
  simp only [postResponseBody, postResponseBodySpecOrder, if_neg h1, if_neg h2, if_neg h3,
    if_neg h4, if_neg h5, if_neg h6, if_neg h7]

/-- C5: a POST to any path ending in the literal `/follow` returns exactly
`{"message": "Follow successful"}`, whatever the prefix is. -/
theorem post_follow_suffix_body (now p : String) (h : endswith p "/follow" = true) :
    (do_POST now p).body = [("message", JsonVal.str "Follow successful")] := by
  show postResponseBody now p = _
  unfold postResponseBody
  rw [if_neg (ne_of_endswith h (by decide)), if_neg (ne_of_endswith h (by decide)),
    if_neg (ne_of_endswith h (by decide)), if_neg (ne_of_endswith h (by decide)),
    if_neg (ne_of_endswith h (by decide)), if_pos h]

/-- C5 witness: the empty prefix, `p = "/follow"`. -/
theorem post_follow_suffix_body_witness :
    (do_POST "T" "/follow").body = [("message", JsonVal.str "Follow successful")] :=
  post_follow_suffix_body "T" "/follow" (by decide)

/-- C6: GET responses for `/api/v1/accounts/` followed by any two suffixes
are identical, and both equal the fixed account payload. -/
theorem accounts_get_ignores_suffix (now s t : String) :
    (do_GET now ("/api/v1/accounts/" ++ s)).body =
      [("id", JsonVal.str "1"), ("username", JsonVal.str "testuser"),
       ("display_name", JsonVal.str "Test User"),
       ("created_at", JsonVal.str "2025-01-01T00:00:00Z")] ∧
    (do_GET now ("/api/v1/accounts/" ++ t)).body =
      [("id", JsonVal.str "1"), ("username", JsonVal.str "testuser"),
       ("display_name", JsonVal.str "Test User"),
       ("created_at", JsonVal.str "2025-01-01T00:00:00Z")] ∧
    (do_GET now ("/api/v1/accounts/" ++ s)).body = (do_GET now ("/api/v1/accounts/" ++ t)).body := by
  have key : ∀ u : String, (do_GET now ("/api/v1/accounts/" ++ u)).body =
      [("id", JsonVal.str "1"), ("username", JsonVal.str "testuser"),
       ("display_name", JsonVal.str "Test User"),
       ("created_at", JsonVal.str "2025-01-01T00:00:00Z")] := by
    intro u
    have hpre := startswith_append "/api/v1/accounts/" u
    show getResponseBody now ("/api/v1/accounts/" ++ u) = _
    unfold getResponseBody
    rw [if_neg (ne_of_startswith hpre (by decide)),
      if_neg (ne_of_startswith hpre (by decide)),
      if_neg (ne_of_startswith hpre (by decide)), if_pos hpre]
  exact ⟨key s, key t, (key s).trans (key t).symm⟩

/-- C3: for each supported GET pattern, the response body's key set is
exactly the documented one, the five rules being tried in priority order
with the first match winning. -/
theorem get_supported_patterns_keys (now p : String) :
    (p = "/health" → keys (do_GET now p).body = ["status", "message", "timestamp"]) ∧
    (p = "/api/v1/instance" → keys (do_GET now p).body = ["version", "name", "description"]) ∧
    (p = "/api/v1/timelines/public" → keys (do_GET now p).body = ["statuses", "next", "prev"]) ∧
    (startswith p "/api/v1/accounts/" = true →
      keys (do_GET now p).body = ["id", "username", "display_name", "created_at"]) ∧
    (startswith p "/api/v1/search" = true →
      keys (do_GET now p).body = ["accounts", "statuses", "hashtags"]) := by
  refine ⟨?_, ?_, ?_, ?_, ?_⟩ <;> intro h
  · subst h; rfl
  · subst h; rfl
  · subst h; rfl
  · show keys (getResponseBody now p) = _
    unfold getResponseBody
    rw [if_neg (ne_of_startswith h (by decide)), if_neg (ne_of_startswith h (by decide)),
      if_neg (ne_of_startswith h (by decide)), if_pos h]
    rfl
  · show keys (getResponseBody now p) = _
    unfold getResponseBody
    rw [if_neg (ne_of_startswith h (by decide)), if_neg (ne_of_startswith h (by decide)),
      if_neg (ne_of_startswith h (by decide)),
      if_neg ( startswith_not_of_startswith "/api/v1/accounts/" h (by decide) (by decide)),
      if_pos h]
    rfl

/-- C3 witness: one concrete path per pattern. -/
theorem get_supported_patterns_keys_witness :
    keys (do_GET "T" "/health").body = ["status", "message", "timestamp"] ∧
    keys (do_GET "T" "/api/v1/instance").body = ["version", "name", "description"] ∧
    keys (do_GET "T" "/api/v1/timelines/public").body = ["statuses", "next", "prev"] ∧
    keys (do_GET "T" "/api/v1/accounts/123").body = ["id", "username", "display_name", "created_at"] ∧
    keys (do_GET "T" "/api/v1/search?q=test").body = ["accounts", "statuses", "hashtags"] :=
  ⟨(get_supported_patterns_keys "T" "/health").1 rfl,
   (get_supported_patterns_keys "T" "/api/v1/instance").2.1 rfl,
   (get_supported_patterns_keys "T" "/api/v1/timelines/public").2.2.1 rfl,
   (get_supported_patterns_keys "T" "/api/v1/accounts/123").2.2.2.1 (by decide),
   (get_supported_patterns_keys "T" "/api/v1/search?q=test").2.2.2.2 (by decide)⟩

/-- C4: every GET path matching none of the five GET rules yields the
welcome body, whose keys are exactly `message` and `endpoints` with
`endpoints` the list of available endpoint strings; independently, every
POST path matching none of the eighteen POST rules yields exactly
`{"error": "Endpoint not implemented", "path": p}`; the two fallback bodies
have distinct shapes (different key sets). -/
theorem unmatched_fallback_bodies (now p : String) :
    (p ≠ "/health" → p ≠ "/api/v1/instance" → p ≠ "/api/v1/timelines/public" →
      startswith p "/api/v1/accounts/" = false → startswith p "/api/v1/search" = false →
      (do_GET now p).body =
        [("message", JsonVal.str "Welcome to Rustodon Test Server"),
         ("endpoints", JsonVal.arr ["/health", "/api/v1/instance", "/api/v1/timelines/public",
           "/api/v1/accounts/1", "/api/v1/search?q=test"])] ∧
      keys (do_GET now p).body = ["message", "endpoints"]) ∧
    (p ≠ "/api/v1/auth/register" → p ≠ "/api/v1/auth/login" → p ≠ "/api/v1/statuses" →
      p ≠ "/api/v1/media" → p ≠ "/api/v1/notifications" →
      endswith p "/follow" = false → endswith p "/unfollow" = false →
      endswith p "/favourite" = false → endswith p "/unfavourite" = false →
      endswith p "/reblog" = false → endswith p "/unreblog" = false →
      p ≠ "/api/v1/lists" → p ≠ "/api/v1/conversations" → p ≠ "/api/v1/bookmarks" →
      p ≠ "/api/v1/mutes" → p ≠ "/api/v1/blocks" → p ≠ "/api/v1/reports" →
      p ≠ "/api/v1/filters" →
      (do_POST now p).body =
        [("error", JsonVal.str "Endpoint not implemented"), ("path", JsonVal.str p)] ∧
      keys (do_POST now p).body = ["error", "path"]) ∧
    keys [("message", JsonVal.str "Welcome to Rustodon Test Server"),
         ("endpoints", JsonVal.arr ["/health", "/api/v1/instance", "/api/v1/timelines/public",
           "/api/v1/accounts/1", "/api/v1/search?q=test"])] ≠
      keys [("error", JsonVal.str "Endpoint not implemented"), ("path", JsonVal.str p)] := by
  refine ⟨?_, ?_, ?_⟩
  · intro g1 g2 g3 g4 g5
    have hget : (do_GET now p).body =
        [("message", JsonVal.str "Welcome to Rustodon Test Server"),
         ("endpoints", JsonVal.arr ["/health", "/api/v1/instance", "/api/v1/timelines/public",
           "/api/v1/accounts/1", "/api/v1/search?q=test"])] := by
      show getResponseBody now p = _
      unfold getResponseBody
      rw [if_neg g1, if_neg g2, if_neg g3, if_neg (not_true_of_false g4),
        if_neg (not_true_of_false g5)]
    exact ⟨hget, by rw [hget]; rfl⟩
  · intro e1 e2 e3 e4 e5 s1 s2 s3 s4 s5 s6 e6 e7 e8 e9 e10 e11 e12
    have hpost : (do_POST now p).body =
        [("error", JsonVal.str "Endpoint not implemented"), ("path", JsonVal.str p)] := by
      show postResponseBody now p = _
      unfold postResponseBody
      rw [if_neg e1, if_neg e2, if_neg e3, if_neg e4, if_neg e5, if_neg (not_true_of_false s1),
        if_neg (not_true_of_false s2), if_neg (not_true_of_false s3),
        if_neg (not_true_of_false s4), if_neg (not_true_of_false s5),
        if_neg (not_true_of_false s6), if_neg e6, if_neg e7, if_neg e8, if_neg e9, if_neg e10,
        if_neg e11, if_neg e12]
    exact ⟨hpost, by rw [hpost]; rfl⟩
  · show (["message", "endpoints"] : List String) ≠ ["error", "path"]
    decide

/-- C4 witness: GET `/api/v1/media` (a path that matches a POST rule but no
GET rule) falls through to the welcome body, and POST `/health` (a path that
matches a GET rule but no POST rule) falls through to the error body. -/
theorem unmatched_fallback_bodies_witness :
    (do_GET "T" "/api/v1/media").body =
      [("message", JsonVal.str "Welcome to Rustodon Test Server"),
       ("endpoints", JsonVal.arr ["/health", "/api/v1/instance", "/api/v1/timelines/public",
         "/api/v1/accounts/1", "/api/v1/search?q=test"])] ∧
    (do_POST "T" "/health").body =
      [("error", JsonVal.str "Endpoint not implemented"), ("path", JsonVal.str "/health")] :=
  ⟨((unmatched_fallback_bodies "T" "/api/v1/media").1
      (by decide) (by decide) (by decide) (by decide) (by decide)).1,
   ((unmatched_fallback_bodies "T" "/health").2.1
      (by decide) (by decide) (by decide) (by decide) (by decide) (by decide) (by decide)
      (by decide) (by decide) (by decide) (by decide) (by decide) (by decide) (by decide)
      (by decide) (by decide) (by decide) (by decide)).1⟩

/-- C7: any GET whose raw path starts with `/api/v1/search` (the query
string being part of the match target) returns exactly
`{"accounts": [], "statuses": [], "hashtags": []}`. -/
theorem search_prefix_get_body (now p : String) (h : startswith p "/api/v1/search" = true) :
    (do_GET now p).body =
      [("accounts", JsonVal.arr []), ("statuses", JsonVal.arr []), ("hashtags", JsonVal.arr [])] := by
  show getResponseBody now p = _
  unfold getResponseBody
  rw [if_neg (ne_of_startswith h (by decide)), if_neg (ne_of_startswith h (by decide)),
    if_neg (ne_of_startswith h (by decide)),
    if_neg ( startswith_not_of_startswith "/api/v1/accounts/" h (by decide) (by decide)),
    if_pos h]

/-- C7 witness: the raw path `/api/v1/search?q=test`. -/
theorem search_prefix_get_body_witness :
    (do_GET "T" "/api/v1/search?q=test").body =
      [("accounts", JsonVal.arr []), ("statuses", JsonVal.arr []), ("hashtags", JsonVal.arr [])] :=
  search_prefix_get_body "T" "/api/v1/search?q=test" (by decide)

/-- C8: the dispatcher is deterministic — with the same current-time value it
produces identical responses — and for every GET path other than `/health`
and every POST path other than `/api/v1/statuses` the response does not
depend on the current time at all; at those two endpoints only the
`timestamp`/`created_at` field carries the time value. -/
theorem dispatcher_deterministic_time_independent (now now2 p : String) :
    handle Method.GET now p = handle Method.GET now p ∧
    handle Method.POST now p = handle Method.POST now p ∧
    (p ≠ "/health" → do_GET now p = do_GET now2 p) ∧
    (p ≠ "/api/v1/statuses" → do_POST now p = do_POST now2 p) ∧
    (do_GET now "/health").body =
      [("status", JsonVal.str "ok"), ("message", JsonVal.str "Health check passed"),
       ("timestamp", JsonVal.str now)] ∧
    (do_POST now "/api/v1/statuses").body =
      [("id", JsonVal.str "1"), ("content", JsonVal.str "Test status"),
       ("created_at", JsonVal.str now)] := by
  refine ⟨rfl, rfl, ?_, ?_, rfl, rfl⟩
  · intro h
    simp only [do_GET, getResponseBody, if_neg h]
  · intro h
    simp only [do_POST, postResponseBody, if_neg h]

/-- C8 witness: two distinct time values, time-independent endpoints. -/
theorem dispatcher_deterministic_time_independent_witness :
    do_GET "T1" "/api/v1/instance" = do_GET "T2" "/api/v1/instance" ∧
    do_POST "T1" "/api/v1/media" = do_POST "T2" "/api/v1/media" :=
  ⟨(dispatcher_deterministic_time_independent "T1" "T2" "/api/v1/instance").2.2.1 (by decide),
   (dispatcher_deterministic_time_independent "T1" "T2" "/api/v1/media").2.2.2.1 (by decide)⟩

/-- C9: exact-match rules compare the full raw path including the query
string, so `/health`, `/api/v1/instance` and `/api/v1/timelines/public`
followed by a query suffix fall through to the fallback welcome payload. -/
theorem exact_match_includes_query_string (now q : String) (h : startswith q "?" = true) :
    (do_GET now ("/health" ++ q)).body =
      [("message", JsonVal.str "Welcome to Rustodon Test Server"),
       ("endpoints", JsonVal.arr ["/health", "/api/v1/instance", "/api/v1/timelines/public",
         "/api/v1/accounts/1", "/api/v1/search?q=test"])] ∧
    (do_GET now ("/api/v1/instance" ++ q)).body =
      [("message", JsonVal.str "Welcome to Rustodon Test Server"),
       ("endpoints", JsonVal.arr ["/health", "/api/v1/instance", "/api/v1/timelines/public",
         "/api/v1/accounts/1", "/api/v1/search?q=test"])] ∧
    (do_GET now ("/api/v1/timelines/public" ++ q)).body =
      [("message", JsonVal.str "Welcome to Rustodon Test Server"),
       ("endpoints", JsonVal.arr ["/health", "/api/v1/instance", "/api/v1/timelines/public",
         "/api/v1/accounts/1", "/api/v1/search?q=test"])] := by
  have hq : q.data ≠ [] := data_ne_nil_of_startswith (by decide) h
  refine ⟨?_, ?_, ?_⟩
  · have hpre := startswith_append "/health" q
    show getResponseBody now ("/health" ++ q) = _
    unfold getResponseBody
    rw [if_neg (append_ne_self hq), if_neg (ne_of_startswith hpre (by decide)),
      if_neg (ne_of_startswith hpre (by decide)),
      if_neg ( startswith_not_of_startswith "/api/v1/accounts/" hpre (by decide) (by decide)),
      if_neg ( startswith_not_of_startswith "/api/v1/search" hpre (by decide) (by decide))]
  · have hpre := startswith_append "/api/v1/instance" q
    show getResponseBody now ("/api/v1/instance" ++ q) = _
    unfold getResponseBody
    rw [if_neg (ne_of_startswith hpre (by decide)), if_neg (append_ne_self hq),
      if_neg (ne_of_startswith hpre (by decide)),
      if_neg ( startswith_not_of_startswith "/api/v1/accounts/" hpre (by decide) (by decide)),
      if_neg ( startswith_not_of_startswith "/api/v1/search" hpre (by decide) (by decide))]
  · have hpre := startswith_append "/api/v1/timelines/public" q
    show getResponseBody now ("/api/v1/timelines/public" ++ q) = _
    unfold getResponseBody
    rw [if_neg (ne_of_startswith hpre (by decide)), if_neg (ne_of_startswith hpre (by decide)),
      if_neg (append_ne_self hq),
      if_neg ( startswith_not_of_startswith "/api/v1/accounts/" hpre (by decide) (by decide)),
      if_neg ( startswith_not_of_startswith "/api/v1/search" hpre (by decide) (by decide))]

/-- C9 witness: the query suffix `?x=1`. -/
theorem exact_match_includes_query_string_witness :
    (do_GET "T" ("/health" ++ "?x=1")).body =
      [("message", JsonVal.str "Welcome to Rustodon Test Server"),
       ("endpoints", JsonVal.arr ["/health", "/api/v1/instance", "/api/v1/timelines/public",
         "/api/v1/accounts/1", "/api/v1/search?q=test"])] :=
  (exact_match_includes_query_string "T" "?x=1" (by decide)).1

/-- C10: POST paths ending in `/unfollow`, `/unfavourite` and `/unreblog`
get their own messages — the earlier `/follow`, `/favourite` and `/reblog`
suffix rules never capture them, the suffix literals including the leading
slash. -/
theorem post_un_suffix_rules (now p : String) :
    (endswith p "/unfollow" = true →
      (do_POST now p).body = [("message", JsonVal.str "Unfollow successful")]) ∧
    (endswith p "/unfavourite" = true →
      (do_POST now p).body = [("message", JsonVal.str "Unfavourite successful")]) ∧
    (endswith p "/unreblog" = true →
      (do_POST now p).body = [("message", JsonVal.str "Unreblog successful")]) := by
  refine ⟨?_, ?_, ?_⟩
  · intro h
    show postResponseBody now p = _
    unfold postResponseBody
    rw [if_neg (ne_of_endswith h (by decide)), if_neg (ne_of_endswith h (by decide)),
      if_neg (ne_of_endswith h (by decide)), if_neg (ne_of_endswith h (by decide)),
      if_neg (ne_of_endswith h (by decide)),
      if_neg ( endswith_not_of_endswith "/follow" h (by decide) (by decide)), if_pos h]
  · intro h
    show postResponseBody now p = _
    unfold postResponseBody
    rw [if_neg (ne_of_endswith h (by decide)), if_neg (ne_of_endswith h (by decide)),
      if_neg (ne_of_endswith h (by decide)), if_neg (ne_of_endswith h (by decide)),
      if_neg (ne_of_endswith h (by decide)),
      if_neg ( endswith_not_of_endswith "/follow" h (by decide) (by decide)),
      if_neg ( endswith_not_of_endswith "/unfollow" h (by decide) (by decide)),
      if_neg ( endswith_not_of_endswith "/favourite" h (by decide) (by decide)), if_pos h]
  · intro h
    show postResponseBody now p = _
    unfold postResponseBody
    rw [if_neg (ne_of_endswith h (by decide)), if_neg (ne_of_endswith h (by decide)),
      if_neg (ne_of_endswith h (by decide)), if_neg (ne_of_endswith h (by decide)),
      if_neg (ne_of_endswith h (by decide)),
      if_neg ( endswith_not_of_endswith "/follow" h (by decide) (by decide)),
      if_neg ( endswith_not_of_endswith "/unfollow" h (by decide) (by decide)),
      if_neg ( endswith_not_of_endswith "/favourite" h (by decide) (by decide)),
      if_neg ( endswith_not_of_endswith "/unfavourite" h (by decide) (by decide)),
      if_neg ( endswith_not_of_endswith "/reblog" h (by decide) (by decide)), if_pos h]

/-- C10 witness: one concrete path per suffix. -/
theorem post_un_suffix_rules_witness :
    (do_POST "T" "/api/v1/accounts/1/unfollow").body =
      [("message", JsonVal.str "Unfollow successful")] ∧
    (do_POST "T" "/api/v1/statuses/5/unfavourite").body =
      [("message", JsonVal.str "Unfavourite successful")] ∧
    (do_POST "T" "/api/v1/statuses/5/unreblog").body =
      [("message", JsonVal.str "Unreblog successful")] :=
  ⟨(post_un_suffix_rules "T" "/api/v1/accounts/1/unfollow").1 (by decide),
   (post_un_suffix_rules "T" "/api/v1/statuses/5/unfavourite").2.1 (by decide),
   (post_un_suffix_rules "T" "/api/v1/statuses/5/unreblog").2.2 (by decide)⟩
